import Mathlib

/-!
Verification development for the feedparser repository: the multi-dialect
date/time normalizer, the fetch/transport layer, and the byte-signature
encoding sniff used by the test harness.
-/

namespace Feedparser

/-- CanonicalTimestamp: 9-field calendar value (year, month, day, hour,
minute, second, weekday, day-of-year, DST flag), always UTC-normalized. -/
structure TimeTuple where
  year : Nat
  month : Nat
  mday : Nat
  hour : Nat
  minute : Nat
  second : Nat
  wday : Nat
  yday : Nat
  isdst : Nat
deriving DecidableEq, Repr

/-- Gregorian leap-year rule, including the century-divisible-by-400 rule. -/
def isLeap (y : Nat) : Bool :=
  (y % 4 == 0 && y % 100 != 0) || (y % 400 == 0)

/-- Number of days in month `m` (1-12) of year `y`. -/
def monthDays (y m : Nat) : Nat :=
  if m == 2 then (if isLeap y then 29 else 28)
  else if m == 4 || m == 6 || m == 9 || m == 11 then 30
  else 31

/-- Days in year `y` strictly before month `m`. -/
def daysBeforeMonth (y m : Nat) : Nat :=
  (List.range (m - 1)).foldl (fun acc i => acc + monthDays y (i + 1)) 0

/-- Days from 0001-01-01 (day 0) to the given proleptic-Gregorian date;
0001-01-01 is a Monday, so `daysFromCE y m d % 7` is the Python-style
weekday (Monday = 0). -/
def daysFromCE (y m d : Nat) : Nat :=
  (y - 1) * 365 + (y - 1) / 4 - (y - 1) / 100 + (y - 1) / 400
    + daysBeforeMonth y m + (d - 1)

/-- Carry/borrow an out-of-range day-of-month into the proper month and
year by true calendar arithmetic (fuel-bounded). -/
def fixDay : Nat → Nat → Nat → Int → Nat × Nat × Nat
  | 0, y, m, d => (y, m, d.toNat)
  | fuel + 1, y, m, d =>
    if d < 1 then
      let y' := if m == 1 then y - 1 else y
      let m' := if m == 1 then 12 else m - 1
      fixDay fuel y' m' (d + monthDays y' m')
    else if d > (monthDays y m : Int) then
      let y' := if m == 12 then y + 1 else y
      let m' := if m == 12 then 1 else m + 1
      fixDay fuel y' m' (d - monthDays y m)
    else (y, m, d.toNat)

/-- Assemble a canonical tuple from a fixed calendar date and a
second-of-day; weekday and day-of-year are derived from the final date,
never parsed, and the DST flag is always 0. -/
def mkTuple (ymd : Nat × Nat × Nat) (t : Nat) : TimeTuple :=
  { year := ymd.1, month := ymd.2.1, mday := ymd.2.2,
    hour := t / 3600, minute := t % 3600 / 60, second := t % 60,
    wday := daysFromCE ymd.1 ymd.2.1 ymd.2.2 % 7,
    yday := daysBeforeMonth ymd.1 ymd.2.1 + ymd.2.2,
    isdst := 0 }

/-- Modelled from the spec: the shared UTC normalization of every date
recognizer (the recognizers themselves are not under src/, only their
tests).  Applies the zone offset (minutes east of UTC) and computes
overflow/rollover by true calendar arithmetic: 61 seconds carries into
+1 minute, 25 hours carries into +1 day, June 31 rolls to July 1. -/
def normTuple (y m d h mi s : Nat) (offMin : Int) : TimeTuple :=
  let t : Int := ((h * 3600 + mi * 60 + s : Nat) : Int) - offMin * 60
  mkTuple (fixDay 400 y m ((d : Int) + t.fdiv 86400)) (t.emod 86400).toNat

/-! ### Character-level parsing helpers -/

def charDigit (c : Char) : Option Nat :=
  if c.isDigit then some (c.toNat - 48) else none

def natNAux : Nat → Nat → List Char → Option (Nat × List Char)
  | acc, 0, cs => some (acc, cs)
  | _, _ + 1, [] => none
  | acc, n + 1, c :: cs =>
    match charDigit c with
    | some d => natNAux (acc * 10 + d) n cs
    | none => none

/-- Parse exactly `n` decimal digits. -/
def natN (n : Nat) (cs : List Char) : Option (Nat × List Char) :=
  natNAux 0 n cs

/-- Parse one or two decimal digits. -/
def natUpTo2 : List Char → Option (Nat × List Char)
  | [] => none
  | c :: rest =>
    match charDigit c with
    | none => none
    | some d =>
      match rest with
      | [] => some (d, [])
      | c2 :: rest2 =>
        match charDigit c2 with
        | some d2 => some (d * 10 + d2, rest2)
        | none => some (d, rest)

/-- Value of an all-digit token (at least one digit). -/
def digitsVal (cs : List Char) : Option Nat :=
  if cs ≠ [] ∧ cs.all (·.isDigit) then
    some (cs.foldl (fun acc c => acc * 10 + (c.toNat - 48)) 0)
  else none

/-! ### Numeric timezone and time-of-day pieces shared by recognizers -/

/-- Modelled from the spec: trailing numeric zone of an ISO-8601/W3C
timestamp: empty → UTC, `Z` → UTC, `±HH:MM` applied directly
(minutes east of UTC). -/
def tzEnd : List Char → Option Int
  | [] => some 0
  | ['Z'] => some 0
  | '+' :: r =>
    match natN 2 r with
    | some (h, ':' :: r1) =>
      match natN 2 r1 with
      | some (m, []) => some ((h * 60 + m : Nat))
      | _ => none
    | _ => none
  | '-' :: r =>
    match natN 2 r with
    | some (h, ':' :: r1) =>
      match natN 2 r1 with
      | some (m, []) => some (-((h * 60 + m : Nat) : Int))
      | _ => none
    | _ => none
  | _ => none

/-- Modelled from the spec: optional `T`-prefixed time-of-day of an
ISO-8601/W3C timestamp, with optional seconds, optional fractional
seconds (discarded), and trailing zone. -/
def w3Time : List Char → Option (Nat × Nat × Nat × Int)
  | [] => some (0, 0, 0, 0)
  | 'T' :: r =>
    match natN 2 r with
    | some (h, ':' :: r1) =>
      match natN 2 r1 with
      | some (mi, r2) =>
        let sr : Option (Nat × List Char) :=
          match r2 with
          | ':' :: r3 =>
            match natN 2 r3 with
            | some (s, r4) =>
              match r4 with
              | '.' :: r5 =>
                if (r5.takeWhile (·.isDigit)) ≠ [] then
                  some (s, r5.dropWhile (·.isDigit))
                else none
              | _ => some (s, r4)
            | none => none
          | _ => some (0, r2)
        match sr with
        | some (s, rest) =>
          match tzEnd rest with
          | some off => some (h, mi, s, off)
          | none => none
        | none => none
      | _ => none
    | _ => none
  | _ => none

/-! ### The W3DTF recognizer -/

/-- Modelled from the spec: the ISO-8601/W3C (W3DTF) recognizer, absent
from src/ (only its tests are present).  Accepts `YYYY`, `YYYY-MM`,
`YYYY-MM-DD`, `YYYYMMDD`, each with an optional `T`-time and zone;
out-of-range components are carried, not rejected. -/
def w3dtfExtract (s : String) : Option (Nat × Nat × Nat × Nat × Nat × Nat × Int) :=
  match natN 4 s.toList with
  | some (y, r1) =>
    match r1 with
    | [] => some (y, 1, 1, 0, 0, 0, 0)
    | '-' :: r2 =>
      match natN 2 r2 with
      | some (mo, r3) =>
        if 1 ≤ mo ∧ mo ≤ 12 then
          match r3 with
          | [] => some (y, mo, 1, 0, 0, 0, 0)
          | '-' :: r4 =>
            match natN 2 r4 with
            | some (d, r5) =>
              if 1 ≤ d then
                match w3Time r5 with
                | some (h, mi, sec, off) => some (y, mo, d, h, mi, sec, off)
                | none => none
              else none
            | none => none
          | _ => none
        else none
      | none => none
    | _ =>
      match natN 4 r1 with
      | some (md, r2) =>
        let mo := md / 100
        let d := md % 100
        if 1 ≤ mo ∧ mo ≤ 12 ∧ 1 ≤ d then
          match w3Time r2 with
          | some (h, mi, sec, off) => some (y, mo, d, h, mi, sec, off)
          | none => none
        else none
      | none => none
  | none => none

/-- Lift an extractor (raw calendar fields plus zone offset) into a
recognizer returning a canonical tuple. -/
def viaNorm (ex : String → Option (Nat × Nat × Nat × Nat × Nat × Nat × Int)) :
    String → Option TimeTuple :=
  fun s => (ex s).map fun a =>
    normTuple a.1 a.2.1 a.2.2.1 a.2.2.2.1 a.2.2.2.2.1 a.2.2.2.2.2.1 a.2.2.2.2.2.2

/-- Modelled from the spec: `_parse_date_w3dtf`. -/
def _parse_date_w3dtf : String → Option TimeTuple :=
  viaNorm w3dtfExtract

/-! ### Token utilities -/

/-- Split a character list on whitespace, dropping empty words. -/
def splitWs (cs : List Char) : List (List Char) :=
  (cs.foldr
    (fun c acc =>
      if c.isWhitespace then [] :: acc
      else
        match acc with
        | [] => [[c]]
        | w :: ws => (c :: w) :: ws)
    []).filter (· ≠ [])

/-- Whitespace tokenization of an input string. -/
def tokenize (s : String) : List String :=
  (splitWs s.toList).map fun cs => String.mk cs

def endsWithComma (t : String) : Bool :=
  t.toList.getLast? = some ','

def isDigitTok (t : String) : Bool :=
  t.toList ≠ [] && t.toList.all (·.isDigit)

/-! ### RFC-822-family recognizer -/

/-- Three-letter lowercase month keys, in calendar order. -/
def monthKeys : List (List Char) :=
  ["jan".toList, "feb".toList, "mar".toList, "apr".toList, "may".toList,
   "jun".toList, "jul".toList, "aug".toList, "sep".toList, "oct".toList,
   "nov".toList, "dec".toList]

/-- Modelled from the spec: lenient month-name resolution (the first
three letters are significant, so long names such as `January` work). -/
def monthFromName (t : String) : Option Nat :=
  match (t.toList.map Char.toLower).take 3 |> fun k => monthKeys.indexOf k with
  | i => if i < 12 then some (i + 1) else none

def dayKeys : List (List Char) :=
  ["mon".toList, "tue".toList, "wed".toList, "thu".toList, "fri".toList,
   "sat".toList, "sun".toList]

def isDayNameTok (t : String) : Bool :=
  dayKeys.contains ((t.toList.map Char.toLower).take 3)

/-- Modelled from the spec: named US timezone abbreviations and their
daylight variants map to fixed UTC offsets (minutes east), including
the informal `AT/ET/CT/MT/PT` forms; `Etc/GMT` and the UTC aliases map
to zero. -/
def namedTz : List (String × Int) :=
  [("UT", 0), ("GMT", 0), ("UTC", 0), ("Z", 0), ("Etc/GMT", 0),
   ("EST", -300), ("EDT", -240), ("CST", -360), ("CDT", -300),
   ("MST", -420), ("MDT", -360), ("PST", -480), ("PDT", -420),
   ("AT", -240), ("ET", -300), ("CT", -360), ("MT", -420), ("PT", -480)]

/-- Zone token of an RFC-822 date: a named abbreviation or `±HHMM`. -/
def tzOffset (t : String) : Option Int :=
  match namedTz.lookup t with
  | some off => some off
  | none =>
    match t.toList with
    | '+' :: r =>
      match natN 4 r with
      | some (v, []) => some ((v / 100 * 60 + v % 100 : Nat))
      | _ => none
    | '-' :: r =>
      match natN 4 r with
      | some (v, []) => some (-((v / 100 * 60 + v % 100 : Nat) : Int))
      | _ => none
    | _ => none

/-- Time-of-day token `HH:MM[:SS]` with one- or two-digit fields. -/
def parseTimeTok (t : String) : Option (Nat × Nat × Nat) :=
  match natUpTo2 t.toList with
  | some (h, ':' :: r1) =>
    match natN 2 r1 with
    | some (mi, []) => some (h, mi, 0)
    | some (mi, ':' :: r2) =>
      match natN 2 r2 with
      | some (s, []) => some (h, mi, s)
      | _ => none
    | _ => none
  | _ => none

/-- Day-of-month token: one or two digits, at least 1. -/
def parseDayTok (t : String) : Option Nat :=
  match digitsVal t.toList with
  | some v => if t.toList.length ≤ 2 ∧ 1 ≤ v then some v else none
  | none => none

/-- Two-digit years are expanded to the century that keeps them within
1969-2068, so `04` and `2004` denote the same year. -/
def expandYear (yy : Nat) : Nat :=
  if yy > 68 then 1900 + yy else 2000 + yy

/-- Year token: all digits; values below 100 are century-expanded. -/
def parseYearTok (t : String) : Option Nat :=
  match digitsVal t.toList with
  | some v => some (if v < 100 then expandYear v else v)
  | none => none

/-- Optional time and zone tokens at the end of an RFC-822 date. -/
def timeTzOf : List String → Option (Nat × Nat × Nat × Int)
  | [] => some (0, 0, 0, 0)
  | [tm] =>
    match parseTimeTok tm with
    | some (h, mi, s) => some (h, mi, s, 0)
    | none => none
  | [tm, tz] =>
    match parseTimeTok tm, tzOffset tz with
    | some (h, mi, s), some off => some (h, mi, s, off)
    | _, _ => none
  | _ => none

/-- Core of the RFC-822 recognizer: `day month year [time] [zone]`. -/
def dateForm : List String → Option TimeTuple
  | d :: m :: y :: rest =>
    match parseDayTok d, monthFromName m, parseYearTok y, timeTzOf rest with
    | some dd, some mm, some yy, some tt =>
      some (normTuple yy mm dd tt.1 tt.2.1 tt.2.2.1 tt.2.2.2)
    | _, _, _, _ => none
  | _ => none

/-- RFC-822 tokens after the optional weekday: either `day month year …`
or the asctime arrangement `weekday month day time [zone] year`,
which is reordered and delegated to `dateForm`. -/
def dateOrAsc (toks : List String) : Option TimeTuple :=
  match toks with
  | a :: b :: rest =>
    if isDigitTok a then dateForm toks
    else
      match rest with
      | [d, tm, tz, y] => dateForm [d, b, y, tm, tz]
      | [d, tm, y] => dateForm [d, b, y, tm]
      | _ => none
  | _ => none

/-- Modelled from the spec: the RFC-822/asctime recognizer, absent from
src/ (only its tests are present).  A leading token ending in a comma
is a weekday name and is dropped; month names are matched leniently;
2- and 4-digit years are both accepted. -/
def rfc822FromTokens (toks : List String) : Option TimeTuple :=
  match toks with
  | [] => none
  | t0 :: rest => if endsWithComma t0 then dateOrAsc rest else dateOrAsc toks

/-- Modelled from the spec: `_parse_date_rfc822`. -/
def _parse_date_rfc822 (s : String) : Option TimeTuple :=
  rfc822FromTokens (tokenize s)

/-! ### Locale-specific and vendor-specific recognizers -/

/-- Modelled from the spec: Greek month tokens mapped to English month
names; the table is restricted to the tokens evidenced in the
repository's test data. -/
def greekMonths : List (String × String) :=
  [("Ιαν", "Jan"), ("Φεβ", "Feb"), ("Μάώ", "Mar"), ("Απρ", "Apr"),
   ("Μάι", "May"), ("Ιούν", "Jun"), ("Ιούλ", "Jul"), ("Αύγ", "Aug"),
   ("Σεπ", "Sep"), ("Οκτ", "Oct"), ("Νοέ", "Nov"), ("Δεκ", "Dec")]

/-- Modelled from the spec: `_parse_date_greek` rewrites Greek month
tokens to English and defers to the RFC-822 recognizer; it declines
when no Greek month token occurs. -/
def _parse_date_greek (s : String) : Option TimeTuple :=
  if (tokenize s).any (fun t => (greekMonths.lookup t).isSome) then
    rfc822FromTokens ((tokenize s).map fun t => ((greekMonths.lookup t).getD t))
  else none

/-- Modelled from the spec: Hungarian month names and their month
numbers; the table is restricted to the tokens evidenced in the
repository's test data. -/
def hungarianMonths : List (String × Nat) :=
  [("január", 1), ("február", 2), ("március", 3), ("április", 4),
   ("május", 5), ("június", 6), ("július", 7), ("augusztus", 8),
   ("szeptember", 9), ("október", 10), ("november", 11), ("december", 12)]

/-- Modelled from the spec: `_parse_date_hungarian` recognizes
`YYYY-<month name>-DDTH:MM±HH:MM` with a one- or two-digit hour and no
seconds field. -/
def hungarianExtract (s : String) :
    Option (Nat × Nat × Nat × Nat × Nat × Nat × Int) :=
  match natN 4 s.toList with
  | some (y, '-' :: r1) =>
    let name := r1.takeWhile (· ≠ '-')
    match hungarianMonths.lookup (String.mk name) with
    | some mo =>
      match r1.dropWhile (· ≠ '-') with
      | '-' :: r2 =>
        match natUpTo2 r2 with
        | some (d, 'T' :: r3) =>
          match natUpTo2 r3 with
          | some (h, ':' :: r4) =>
            match natN 2 r4 with
            | some (mi, r5) =>
              if 1 ≤ d then
                match tzEnd r5 with
                | some off => some (y, mo, d, h, mi, 0, off)
                | none => none
              else none
            | none => none
          | _ => none
        | _ => none
      | _ => none
    | none => none
  | _ => none

def _parse_date_hungarian : String → Option TimeTuple :=
  viaNorm hungarianExtract

/-- Ordinal day-of-year to month and day (fuel-bounded month scan). -/
def ordToMD (y : Nat) : Nat → Nat → Nat → Option (Nat × Nat)
  | 0, _, _ => none
  | fuel + 1, m, n =>
    if n = 0 ∨ m > 12 then none
    else if n ≤ monthDays y m then some (m, n)
    else ordToMD y fuel (m + 1) (n - monthDays y m)

/-- Modelled from the spec: the ISO-8601 recognizer, absent from src/
(only its tests are present).  Handles the 2-digit-year variants
`-YYMM`, `-YY-MM`, `YYMMDD`, `YY-MM-DD`, the ordinal form `YYDDD`, and
full dates whose month field tolerates an extra leading zero. -/
def iso8601Extract (s : String) :
    Option (Nat × Nat × Nat × Nat × Nat × Nat × Int) :=
  match s.toList with
  | '-' :: rest =>
    (match natN 2 rest with
     | some (yy, '-' :: r1) =>
       (match natN 2 r1 with
        | some (mo, []) =>
          if 1 ≤ mo ∧ mo ≤ 12 then some (2000 + yy, mo, 1, 0, 0, 0, 0) else none
        | _ => none)
     | some (yy, r1) =>
       (match natN 2 r1 with
        | some (mo, []) =>
          if 1 ≤ mo ∧ mo ≤ 12 then some (2000 + yy, mo, 1, 0, 0, 0, 0) else none
        | _ => none)
     | none => none)
  | cs =>
    let ds := cs.takeWhile (·.isDigit)
    let rest := cs.dropWhile (·.isDigit)
    if ds.length = 5 ∧ rest = [] then
      match natN 2 ds with
      | some (yy, r1) =>
        (match natN 3 r1 with
         | some (n, []) =>
           (match ordToMD (2000 + yy) 12 1 n with
            | some md => some (2000 + yy, md.1, md.2, 0, 0, 0, 0)
            | none => none)
         | _ => none)
      | none => none
    else if ds.length = 6 ∧ rest = [] then
      match natN 2 ds with
      | some (yy, r1) =>
        (match natN 2 r1 with
         | some (mo, r2) =>
           (match natN 2 r2 with
            | some (d, []) =>
              if 1 ≤ mo ∧ mo ≤ 12 ∧ 1 ≤ d then
                some (2000 + yy, mo, d, 0, 0, 0, 0)
              else none
            | _ => none)
         | none => none)
      | none => none
    else if ds.length = 2 then
      match natN 2 cs with
      | some (yy, '-' :: r1) =>
        (match natN 2 r1 with
         | some (mo, '-' :: r2) =>
           (match natN 2 r2 with
            | some (d, []) =>
              if 1 ≤ mo ∧ mo ≤ 12 ∧ 1 ≤ d then
                some (2000 + yy, mo, d, 0, 0, 0, 0)
              else none
            | _ => none)
         | _ => none)
      | _ => none
    else if ds.length = 4 then
      match natN 4 cs with
      | some (y, '-' :: r1) =>
        let mds := r1.takeWhile (·.isDigit)
        (match digitsVal mds with
         | some mo =>
           if (mds.length = 2 ∨ mds.length = 3) ∧ 1 ≤ mo ∧ mo ≤ 12 then
             match r1.dropWhile (·.isDigit) with
             | [] => some (y, mo, 1, 0, 0, 0, 0)
             | '-' :: r2 =>
               (match natN 2 r2 with
                | some (d, r3) =>
                  if 1 ≤ d then
                    match w3Time r3 with
                    | some t => some (y, mo, d, t.1, t.2.1, t.2.2.1, t.2.2.2)
                    | none => none
                  else none
                | none => none)
             | _ => none
           else none
         | none => none)
      | _ => none
    else none

def _parse_date_iso8601 : String → Option TimeTuple :=
  viaNorm iso8601Extract

/-- Modelled from the spec: the MSSQL-style recognizer
`YYYY-MM-DD HH:MM:SS[.f]`, a vendor format used by Korean sites, whose
timestamps carry a fixed +09:00 zone. -/
def mssqlExtract (s : String) :
    Option (Nat × Nat × Nat × Nat × Nat × Nat × Int) :=
  match natN 4 s.toList with
  | some (y, '-' :: r1) =>
    match natN 2 r1 with
    | some (mo, '-' :: r2) =>
      match natN 2 r2 with
      | some (d, ' ' :: r3) =>
        match natN 2 r3 with
        | some (h, ':' :: r4) =>
          match natN 2 r4 with
          | some (mi, ':' :: r5) =>
            match natN 2 r5 with
            | some (sec, r6) =>
              let ok := r6 = [] ∨
                (r6.head? = some '.' ∧ (r6.drop 1).all (·.isDigit) ∧ r6.drop 1 ≠ [])
              if 1 ≤ mo ∧ mo ≤ 12 ∧ 1 ≤ d ∧ ok then
                some (y, mo, d, h, mi, sec, 540)
              else none
            | none => none
          | _ => none
        | _ => none
      | _ => none
    | _ => none
  | _ => none

def _parse_date_mssql : String → Option TimeTuple :=
  viaNorm mssqlExtract

/-- Modelled from the spec: the Nate recognizer
`YYYY-MM-DD 오전|오후 HH:MM:SS` with Korean AM/PM period tokens and a
fixed +09:00 zone. -/
def nateExtract (s : String) :
    Option (Nat × Nat × Nat × Nat × Nat × Nat × Int) :=
  match natN 4 s.toList with
  | some (y, '-' :: r1) =>
    match natN 2 r1 with
    | some (mo, '-' :: r2) =>
      match natN 2 r2 with
      | some (d, ' ' :: r3) =>
        let ap := r3.takeWhile (· ≠ ' ')
        let isPm := ap = "오후".toList
        if ap = "오전".toList ∨ isPm then
          match r3.dropWhile (· ≠ ' ') with
          | ' ' :: r4 =>
            match natUpTo2 r4 with
            | some (h, ':' :: r5) =>
              match natN 2 r5 with
              | some (mi, ':' :: r6) =>
                match natN 2 r6 with
                | some (sec, []) =>
                  let h' := if isPm then h % 12 + 12 else h % 12
                  if 1 ≤ mo ∧ mo ≤ 12 ∧ 1 ≤ d then
                    some (y, mo, d, h', mi, sec, 540)
                  else none
                | _ => none
              | _ => none
            | _ => none
          | _ => none
        else none
      | _ => none
    | _ => none
  | _ => none

def _parse_date_nate : String → Option TimeTuple :=
  viaNorm nateExtract

/-- Modelled from the spec: the OnBlog recognizer
`YYYY년 MM월 DD일  HH:MM:SS` with Korean date-unit suffixes and a fixed
+09:00 zone. -/
def onblogExtract (s : String) :
    Option (Nat × Nat × Nat × Nat × Nat × Nat × Int) :=
  match natN 4 s.toList with
  | some (y, '년' :: ' ' :: r1) =>
    match natN 2 r1 with
    | some (mo, '월' :: ' ' :: r2) =>
      match natN 2 r2 with
      | some (d, '일' :: r3) =>
        match r3.dropWhile (· = ' ') with
        | r4 =>
          if r3.head? = some ' ' then
            match natN 2 r4 with
            | some (h, ':' :: r5) =>
              match natN 2 r5 with
              | some (mi, ':' :: r6) =>
                match natN 2 r6 with
                | some (sec, []) =>
                  if 1 ≤ mo ∧ mo ≤ 12 ∧ 1 ≤ d then
                    some (y, mo, d, h, mi, sec, 540)
                  else none
                | _ => none
              | _ => none
            | _ => none
          else none
      | _ => none
    | _ => none
  | _ => none

def _parse_date_onblog : String → Option TimeTuple :=
  viaNorm onblogExtract

/-- Modelled from the spec: the Perforce (source-control-style)
recognizer `Wkd, YYYY/MM/DD HH:MM:SS TZ`. -/
def perforceExtract (s : String) :
    Option (Nat × Nat × Nat × Nat × Nat × Nat × Int) :=
  match tokenize s with
  | [w, dt, tm, tz] =>
    if endsWithComma w then
      match natN 4 dt.toList with
      | some (y, '/' :: r1) =>
        match natN 2 r1 with
        | some (mo, '/' :: r2) =>
          match natN 2 r2 with
          | some (d, []) =>
            match parseTimeTok tm, tzOffset tz with
            | some t, some off =>
              if 1 ≤ mo ∧ mo ≤ 12 ∧ 1 ≤ d then
                some (y, mo, d, t.1, t.2.1, t.2.2, off)
              else none
            | _, _ => none
          | _ => none
        | _ => none
      | _ => none
    else none
  | _ => none

def _parse_date_perforce : String → Option TimeTuple :=
  viaNorm perforceExtract

/-! ### The ordered registry and the dispatcher -/

/-- Modelled from the spec: the ordered registry of independent date
recognizers; recognizers run in this fixed priority order. -/
def dateHandlers : List (String → Option TimeTuple) :=
  [_parse_date_greek, _parse_date_hungarian, _parse_date_iso8601,
   _parse_date_mssql, _parse_date_nate, _parse_date_onblog,
   _parse_date_perforce, _parse_date_rfc822, _parse_date_w3dtf]

/-- Modelled from the spec: the top-level `_parse_date` dispatcher:
first successful recognizer wins. -/
def _parse_date (s : String) : Option TimeTuple :=
  dateHandlers.findSome? fun f => f s

/-! ### Wire-format serialization of cache validators -/

def dayAbbrev (w : Nat) : String :=
  ["Mon", "Tue", "Wed", "Thu", "Fri", "Sat", "Sun"].getD w "Mon"

def monAbbrev (m : Nat) : String :=
  ["Jan", "Feb", "Mar", "Apr", "May", "Jun", "Jul", "Aug", "Sep", "Oct",
   "Nov", "Dec"].getD (m - 1) "Jan"

def digitCharOf (k : Nat) : Char := Char.ofNat (48 + k % 10)

/-- Two-digit zero-padded decimal rendering. -/
def pad2 (n : Nat) : String :=
  String.mk [digitCharOf (n / 10 % 10), digitCharOf (n % 10)]

/-- Modelled from the spec: the RFC-822 wire format used when a
calendar tuple or higher-level date value is serialized into an
`If-Modified-Since` header. -/
def formatRFC822 (t : TimeTuple) : String :=
  dayAbbrev t.wday ++ ", " ++ pad2 t.mday ++ " " ++ monAbbrev t.month ++ " "
    ++ Nat.repr t.year ++ " " ++ pad2 t.hour ++ ":" ++ pad2 t.minute ++ ":"
    ++ pad2 t.second ++ " GMT"

/-- The three accepted forms of the `modified` cache validator: a
wire-format string, a 9-field calendar tuple, or a datetime-style value
built from the first calendar fields. -/
inductive ModifiedArg where
  | str (s : String)
  | tup (t : TimeTuple)
  | dt (y mo d h mi s : Nat)
deriving DecidableEq

/-- Modelled from the spec: all three `modified` forms are uniformly
serialized to the wire format before transmission. -/
def serializeModified : ModifiedArg → String
  | .str s => s
  | .tup t => formatRFC822 t
  | .dt y mo d h mi s => formatRFC822 (normTuple y mo d h mi s 0)

/-! ### Transport model -/

/-- Modelled from the spec: the diagnostics a failed decompression can
produce (`IOError`, `struct.error`, `zlib.error`). -/
inductive Diagnostic where
  | ioError
  | structError
  | zlibError
deriving DecidableEq, Repr

structure HttpRequest where
  url : String
  ifNoneMatch : Option String
  ifModifiedSince : Option String
deriving DecidableEq

structure HttpResponse where
  status : Nat
  location : Option String
  etag : Option String
  lastModified : Option String
  contentEncoding : Option String
  body : List Nat
deriving DecidableEq

/-- The transport origin: a function from requests to responses. -/
def Server : Type := HttpRequest → HttpResponse

structure FetchResult where
  resp : HttpResponse
  status : Nat
  href : String
deriving DecidableEq

/-- Modelled from the spec: redirect-following fetch, bounded by a hop
count; records the final URL but the first hop's status code. -/
def fetchLoop (srv : Server) (etag lm : Option String) :
    Nat → String → Option Nat → FetchResult
  | 0, url, first =>
    let r := srv ⟨url, etag, lm⟩
    ⟨r, first.getD r.status, url⟩
  | fuel + 1, url, first =>
    let r := srv ⟨url, etag, lm⟩
    match r.location with
    | some l =>
      if r.status = 301 ∨ r.status = 302 ∨ r.status = 303 ∨ r.status = 307 then
        fetchLoop srv etag lm fuel l (some (first.getD r.status))
      else ⟨r, first.getD r.status, url⟩
    | none => ⟨r, first.getD r.status, url⟩

/-- Modelled from the spec: zlib/deflate payload validity.  The real
codec is not under src/; a body is modelled as a valid stream when it
carries the zlib header byte, and decompression strips it. -/
def inflateModel (b : List Nat) : Option (List Nat) :=
  if b.head? = some 0x78 then some (b.drop 1) else none

/-- Modelled from the spec: gzip decompression with its three failure
modes: a wrong magic number raises `IOError`, a header too short for
the fixed fields raises `struct.error`, and an invalid compressed
payload raises `zlib.error`. -/
def gunzipModel (b : List Nat) : Except Diagnostic (List Nat) :=
  if b.take 2 ≠ [0x1f, 0x8b] then .error .ioError
  else if b.length < 10 then .error .structError
  else
    match inflateModel (b.drop 10) with
    | some payload => .ok payload
    | none => .error .zlibError

/-- Modelled from the spec: the structural parser is an external
collaborator that turns the decoded document into its entry list;
represented here as an uninterpreted extraction of the document. -/
def entriesOfDoc (doc : List Nat) : List (List Nat) := [doc]

/-- The normalized result of one `parse` invocation. -/
structure ParseResult where
  status : Nat
  href : String
  bozo : Nat
  bozoDiag : Option Diagnostic
  document : List Nat
  entries : List (List Nat)
  updated : Option TimeTuple
  etagH : Option String
  lastModifiedH : Option String
deriving DecidableEq

/-- Modelled from the spec: the `parse` entry point over an abstract
transport origin: fetch (following redirects, sending cache
validators), decompress per `Content-Encoding` with bozo diagnostics on
mismatch, and hand the document to the structural parser.  A 304 reply
short-circuits with no entries. -/
def parseModel (srv : Server) (url : String) (etag : Option String)
    (modified : Option ModifiedArg) : ParseResult :=
  let fr := fetchLoop srv etag (modified.map serializeModified) 10 url none
  let resp := fr.resp
  if resp.status = 304 then
    { status := fr.status, href := fr.href, bozo := 0, bozoDiag := none,
      document := [], entries := [], updated := none,
      etagH := resp.etag, lastModifiedH := resp.lastModified }
  else
    let dd : List Nat × Option Diagnostic :=
      match resp.contentEncoding with
      | some enc =>
        if enc = "gzip" then
          match gunzipModel resp.body with
          | .ok b => (b, none)
          | .error e => (resp.body, some e)
        else if enc = "deflate" then
          match inflateModel resp.body with
          | some b => (b, none)
          | none => (resp.body, some .zlibError)
        else (resp.body, none)
      | none => (resp.body, none)
    { status := fr.status, href := fr.href,
      bozo := if dd.2.isSome then 1 else 0, bozoDiag := dd.2,
      document := dd.1, entries := entriesOfDoc dd.1,
      updated := resp.lastModified.bind _parse_date,
      etagH := resp.etag, lastModifiedH := resp.lastModified }

/-- The fixture server of the test suite: replies 304 exactly when the
request's `If-None-Match` matches the resource's ETag or its
`If-Modified-Since` matches the resource's Last-Modified value, else
200 with the body. -/
def staticServer (et lm : String) (body : List Nat) : Server := fun req =>
  if req.ifNoneMatch = some et ∨ req.ifModifiedSince = some lm then
    { status := 304, location := none, etag := some et,
      lastModified := some lm, contentEncoding := none, body := [] }
  else
    { status := 200, location := none, etag := some et,
      lastModified := some lm, contentEncoding := none, body := body }

/-! ### Byte-signature sniffing (from `getDescription` in the source) -/

inductive SniffKind where
  | ebcdic
  | utf32be
  | utf32le
  | utf16be
  | utf16le
  | utf16beBom
  | utf16leBom
  | utf8bom
  | plain
deriving DecidableEq, Repr

/-- The byte-signature dispatch of `getDescription`
(feedparsertest.py lines 405-428), branch for branch: 4-byte EBCDIC and
UTF-32 signatures first, then the UTF-16 `<?xml` patterns, then 2-byte
UTF-16 BOMs guarded by the next two bytes not both being NUL, then the
UTF-8 BOM. -/
def sniff (data : List Nat) : SniffKind :=
  if data.take 4 = [0x4c, 0x6f, 0xa7, 0x94] then .ebcdic
  else if data.take 4 = [0x00, 0x00, 0xfe, 0xff] then .utf32be
  else if data.take 4 = [0xff, 0xfe, 0x00, 0x00] then .utf32le
  else if data.take 4 = [0x00, 0x00, 0x00, 0x3c] then .utf32be
  else if data.take 4 = [0x3c, 0x00, 0x00, 0x00] then .utf32le
  else if data.take 4 = [0x00, 0x3c, 0x00, 0x3f] then .utf16be
  else if data.take 4 = [0x3c, 0x00, 0x3f, 0x00] then .utf16le
  else if data.take 2 = [0xfe, 0xff] ∧ (data.drop 2).take 2 ≠ [0x00, 0x00] then
    .utf16beBom
  else if data.take 2 = [0xff, 0xfe] ∧ (data.drop 2).take 2 ≠ [0x00, 0x00] then
    .utf16leBom
  else if data.take 3 = [0xef, 0xbb, 0xbf] then .utf8bom
  else .plain

/-! ## Supporting lemmas -/

theorem fetchLoop_succ (srv : Server) (etag lm : Option String) (n : Nat)
    (url : String) (first : Option Nat) :
    fetchLoop srv etag lm (n + 1) url first =
      (let r := srv ⟨url, etag, lm⟩
       match r.location with
       | some l =>
         if r.status = 301 ∨ r.status = 302 ∨ r.status = 303 ∨ r.status = 307 then
           fetchLoop srv etag lm n l (some (first.getD r.status))
         else ⟨r, first.getD r.status, url⟩
       | none => ⟨r, first.getD r.status, url⟩) := rfl

/-- The invariant every successful recognizer result satisfies: the DST
flag is 0 and weekday/day-of-year are derived from the final
(UTC-normalized) calendar date, never parsed. -/
def goodTuple (t : TimeTuple) : Prop :=
  t.isdst = 0 ∧ t.wday = daysFromCE t.year t.month t.mday % 7 ∧
    t.yday = daysBeforeMonth t.year t.month + t.mday

theorem normTuple_good (y m d h mi s : Nat) (off : Int) :
    goodTuple (normTuple y m d h mi s off) :=
  ⟨rfl, rfl, rfl⟩

theorem viaNorm_good (ex : String → Option (Nat × Nat × Nat × Nat × Nat × Nat × Int))
    (s : String) (t : TimeTuple) (h : viaNorm ex s = some t) : goodTuple t := by
  rcases Option.map_eq_some'.mp h with ⟨a, -, rfl⟩
  exact normTuple_good _ _ _ _ _ _ _

theorem dateForm_good (l : List String) (t : TimeTuple)
    (h : dateForm l = some t) : goodTuple t := by
  unfold dateForm at h
  repeat' split at h
  all_goals try exact Option.noConfusion h
  all_goals
    injection h with h'
    subst h'
    exact normTuple_good _ _ _ _ _ _ _

theorem dateOrAsc_good (l : List String) (t : TimeTuple)
    (h : dateOrAsc l = some t) : goodTuple t := by
  unfold dateOrAsc at h
  repeat' split at h
  all_goals try exact Option.noConfusion h
  all_goals exact dateForm_good _ _ h

theorem rfc822FromTokens_good (l : List String) (t : TimeTuple)
    (h : rfc822FromTokens l = some t) : goodTuple t := by
  unfold rfc822FromTokens at h
  repeat' split at h
  all_goals try exact Option.noConfusion h
  all_goals exact dateOrAsc_good _ _ h

theorem greek_good (s : String) (t : TimeTuple)
    (h : _parse_date_greek s = some t) : goodTuple t := by
  unfold _parse_date_greek at h
  repeat' split at h
  all_goals try exact Option.noConfusion h
  all_goals exact rfc822FromTokens_good _ _ h

theorem rfc822_good (s : String) (t : TimeTuple)
    (h : _parse_date_rfc822 s = some t) : goodTuple t :=
  rfc822FromTokens_good _ _ h

/-! ## Claims -/

/-- C1: For "2004-02-28T18:14:55-08:00" the date normalizer returns the
canonical tuple (2004,2,29,2,14,55,6,60,0), and for
"2000-02-28T18:14:55-08:00" it returns (2000,2,29,2,14,55,1,60,0):
applying the -08:00 offset carries into the next day, and the carried
date lands on February 29 because 2004 is a leap year and 2000 is a
leap year under the century-divisible-by-400 rule. -/
theorem w3dtf_leap_carry :
    _parse_date_w3dtf "2004-02-28T18:14:55-08:00"
        = some ⟨2004, 2, 29, 2, 14, 55, 6, 60, 0⟩ ∧
    _parse_date_w3dtf "2000-02-28T18:14:55-08:00"
        = some ⟨2000, 2, 29, 2, 14, 55, 1, 60, 0⟩ ∧
    _parse_date "2004-02-28T18:14:55-08:00"
        = some ⟨2004, 2, 29, 2, 14, 55, 6, 60, 0⟩ ∧
    _parse_date "2000-02-28T18:14:55-08:00"
        = some ⟨2000, 2, 29, 2, 14, 55, 1, 60, 0⟩ := by
  refine ⟨?_, ?_, ?_, ?_⟩ <;> decide

/-- C2: Out-of-range time components are carried rather than rejected:
"2003-12-31T25:14:55Z" normalizes to (2004,1,1,1,14,55,3,1,0) (25 hours
carries one day across a year boundary), "2003-12-31T10:61:55Z" to
(2003,12,31,11,1,55,2,365,0), and "2003-12-31T10:14:61Z" to
(2003,12,31,10,15,1,2,365,0). -/
theorem w3dtf_overflow_carry :
    _parse_date_w3dtf "2003-12-31T25:14:55Z"
        = some ⟨2004, 1, 1, 1, 14, 55, 3, 1, 0⟩ ∧
    _parse_date_w3dtf "2003-12-31T10:61:55Z"
        = some ⟨2003, 12, 31, 11, 1, 55, 2, 365, 0⟩ ∧
    _parse_date_w3dtf "2003-12-31T10:14:61Z"
        = some ⟨2003, 12, 31, 10, 15, 1, 2, 365, 0⟩ ∧
    _parse_date "2003-12-31T25:14:55Z" = some ⟨2004, 1, 1, 1, 14, 55, 3, 1, 0⟩ ∧
    _parse_date "2003-12-31T10:61:55Z" = some ⟨2003, 12, 31, 11, 1, 55, 2, 365, 0⟩ ∧
    _parse_date "2003-12-31T10:14:61Z" = some ⟨2003, 12, 31, 10, 15, 1, 2, 365, 0⟩ := by
  refine ⟨?_, ?_, ?_, ?_, ?_, ?_⟩ <;> decide

/-- C3: For the empty string, every registered date recognizer (Greek,
Hungarian, ISO-8601, MSSQL, Nate, OnBlog, Perforce, RFC-822, W3DTF)
returns no match (`none`), as does the top-level `_parse_date`
dispatcher; absence of a match is a normal return value. -/
theorem empty_string_no_match :
    _parse_date_greek "" = none ∧
    _parse_date_hungarian "" = none ∧
    _parse_date_iso8601 "" = none ∧
    _parse_date_mssql "" = none ∧
    _parse_date_nate "" = none ∧
    _parse_date_onblog "" = none ∧
    _parse_date_perforce "" = none ∧
    _parse_date_rfc822 "" = none ∧
    _parse_date_w3dtf "" = none ∧
    _parse_date "" = none := by
  refine ⟨?_, ?_, ?_, ?_, ?_, ?_, ?_, ?_, ?_, ?_⟩ <;> decide

/-- C4: Dispatch through the ordered registry refines each recognizer:
when a recognizer accepts a string and every recognizer before it in
the fixed priority order declines, the `_parse_date` dispatcher returns
exactly that recognizer's canonical tuple (first success wins); and
every dispatcher result is the result of some registered recognizer. -/
theorem parse_date_dispatch :
    (∀ (pre post : List (String → Option TimeTuple))
       (f : String → Option TimeTuple) (s : String) (t : TimeTuple),
       dateHandlers = pre ++ f :: post →
       (pre.all fun g => (g s).isNone) = true →
       f s = some t → _parse_date s = some t) ∧
    (∀ (s : String) (t : TimeTuple), _parse_date s = some t →
       ∃ f ∈ dateHandlers, f s = some t) := by
  constructor
  · intro pre post f s t hreg hall hf
    unfold _parse_date
    rw [hreg, List.findSome?_append]
    have hpre : pre.findSome? (fun g => g s) = none := by
      rw [List.findSome?_eq_none_iff]
      intro g hg
      have := List.all_eq_true.mp hall g hg
      exact Option.isNone_iff_eq_none.mp this
    rw [hpre, Option.none_or, List.findSome?_cons_of_isSome _ (by simp [hf])]
    exact hf
  · intro s t h
    exact List.exists_of_findSome?_eq_some h

/-- C4 witness: only the W3DTF recognizer accepts "2003"; the
dispatcher returns its tuple. -/
theorem parse_date_dispatch_witness :
    _parse_date "2003" = some ⟨2003, 1, 1, 0, 0, 0, 2, 1, 0⟩ :=
  parse_date_dispatch.1
    [_parse_date_greek, _parse_date_hungarian, _parse_date_iso8601,
     _parse_date_mssql, _parse_date_nate, _parse_date_onblog,
     _parse_date_perforce, _parse_date_rfc822]
    [] _parse_date_w3dtf "2003" ⟨2003, 1, 1, 0, 0, 0, 2, 1, 0⟩
    rfl (by decide) (by decide)

/-- C9: Every successful recognizer result, for every recognizer in the
registry and every input, has DST flag 0 and weekday/day-of-year
derived from its UTC-normalized calendar date. -/
theorem recognizers_utc_normalized (f : String → Option TimeTuple)
    (hf : f ∈ dateHandlers) (s : String) (t : TimeTuple)
    (h : f s = some t) : goodTuple t := by
  simp only [dateHandlers, List.mem_cons, List.not_mem_nil, or_false] at hf
  rcases hf with rfl | rfl | rfl | rfl | rfl | rfl | rfl | rfl | rfl
  · exact greek_good _ _ h
  · exact viaNorm_good _ _ _ h
  · exact viaNorm_good _ _ _ h
  · exact viaNorm_good _ _ _ h
  · exact viaNorm_good _ _ _ h
  · exact viaNorm_good _ _ _ h
  · exact viaNorm_good _ _ _ h
  · exact rfc822_good _ _ h
  · exact viaNorm_good _ _ _ h

/-- C9 witness: the W3DTF recognizer on "2003" yields a tuple with DST
flag 0 and derived weekday/day-of-year. -/
theorem recognizers_utc_normalized_witness :
    goodTuple ⟨2003, 1, 1, 0, 0, 0, 2, 1, 0⟩ :=
  recognizers_utc_normalized _parse_date_w3dtf (by simp [dateHandlers])
    "2003" ⟨2003, 1, 1, 0, 0, 0, 2, 1, 0⟩ (by decide)

theorem yearTok_two_vs_four : ∀ yy : Fin 100,
    parseYearTok (pad2 yy.val) = parseYearTok (Nat.repr (expandYear yy.val)) := by
  decide

/-- C5: RFC-822-family date strings that differ only in using a 2-digit
versus a 4-digit year for the same date parse to identical canonical
tuples: with any weekday, day, month and trailing tokens fixed, the
2-digit year token yields the same result as its 4-digit expansion; in
particular "Thu, 01 Jan 04 19:48:21 GMT" and
"Thu, 01 Jan 2004 19:48:21 GMT" agree. -/
theorem rfc822_two_digit_year :
    (∀ (w d m : String) (rest : List String) (yy : Nat), yy < 100 →
       endsWithComma w = true → isDigitTok d = true →
       rfc822FromTokens (w :: d :: m :: pad2 yy :: rest)
         = rfc822FromTokens (w :: d :: m :: Nat.repr (expandYear yy) :: rest)) ∧
    _parse_date_rfc822 "Thu, 01 Jan 04 19:48:21 GMT"
      = _parse_date_rfc822 "Thu, 01 Jan 2004 19:48:21 GMT" := by
  constructor
  · intro w d m rest yy hyy hw hd
    have hy : parseYearTok (pad2 yy) = parseYearTok (Nat.repr (expandYear yy)) :=
      yearTok_two_vs_four ⟨yy, hyy⟩
    simp only [rfc822FromTokens, dateOrAsc, dateForm, hw, hd, if_true]
    rw [hy]
  · decide

/-- C5 witness: the general theorem applied to the concrete token lists
of the example pair. -/
theorem rfc822_two_digit_year_witness :
    rfc822FromTokens ["Thu,", "01", "Jan", pad2 4, "19:48:21", "GMT"]
      = rfc822FromTokens ["Thu,", "01", "Jan", Nat.repr (expandYear 4),
          "19:48:21", "GMT"] :=
  rfc822_two_digit_year.1 "Thu," "01" "Jan" ["19:48:21", "GMT"] 4
    (by decide) (by decide) (by decide)

/-- C6: When parse fetches a resource replying with a 301 (or 302, 303,
307) redirect to a target X that serves a document, the result carries
the first hop's status code, href equal to the final target URL X, and
entries sourced from the document served at X. -/
theorem redirect_first_hop_status :
    ∀ (srv : Server) (u x : String) (s1 : Nat) (r2 : HttpResponse),
      (s1 = 301 ∨ s1 = 302 ∨ s1 = 303 ∨ s1 = 307) →
      srv ⟨u, none, none⟩ = ⟨s1, some x, none, none, none, []⟩ →
      srv ⟨x, none, none⟩ = r2 →
      r2.location = none → r2.contentEncoding = none → r2.status = 200 →
      (parseModel srv u none none).status = s1 ∧
      (parseModel srv u none none).href = x ∧
      (parseModel srv u none none).document = r2.body ∧
      (parseModel srv u none none).entries = entriesOfDoc r2.body := by
  intro srv u x s1 r2 hs h1 h2 hloc henc hst
  obtain ⟨st, loc, et, lm, ce, body⟩ := r2
  simp only at hloc henc hst
  subst hloc
  subst henc
  subst hst
  have hf : fetchLoop srv none none 10 u none
      = ⟨⟨200, none, et, lm, none, body⟩, s1, x⟩ := by
    rw [show (10 : Nat) = 9 + 1 from rfl, fetchLoop_succ, h1]
    simp only [Option.getD]
    rw [if_pos hs]
    rw [show (9 : Nat) = 8 + 1 from rfl, fetchLoop_succ, h2]
    rfl
  unfold parseModel
  rw [Option.map_none', hf]
  simp

/-- A concrete two-resource origin used to witness the redirect claim. -/
def demoRedirectServer : Server := fun req =>
  if req.url = "http://h/feed.xml" then
    ⟨301, some "http://h/target.xml", none, none, none, []⟩
  else ⟨200, none, none, none, none, [60, 102, 62]⟩

/-- C6 witness: the redirect theorem at a concrete origin. -/
theorem redirect_first_hop_status_witness :
    (parseModel demoRedirectServer "http://h/feed.xml" none none).status = 301 ∧
    (parseModel demoRedirectServer "http://h/feed.xml" none none).href
      = "http://h/target.xml" ∧
    (parseModel demoRedirectServer "http://h/feed.xml" none none).document
      = [60, 102, 62] ∧
    (parseModel demoRedirectServer "http://h/feed.xml" none none).entries
      = entriesOfDoc [60, 102, 62] :=
  redirect_first_hop_status demoRedirectServer "http://h/feed.xml"
    "http://h/target.xml" 301 ⟨200, none, none, none, none, [60, 102, 62]⟩
    (Or.inl rfl) (by decide) (by decide) rfl rfl rfl

/-- C7: A fetched body declared Content-Encoding gzip (or deflate) that
is not valid for that encoding does not raise: the result has bozo set,
status 200, and a decompression-specific diagnostic (an IOError,
struct.error, or zlib.error depending on how decompression failed). -/
theorem compression_mismatch_bozo :
    (∀ (srv : Server) (u : String) (r : HttpResponse) (e : Diagnostic),
       srv ⟨u, none, none⟩ = r → r.location = none → r.status = 200 →
       r.contentEncoding = some "gzip" → gunzipModel r.body = .error e →
       (parseModel srv u none none).bozo = 1 ∧
       (parseModel srv u none none).status = 200 ∧
       (parseModel srv u none none).bozoDiag = some e ∧
       (e = .ioError ∨ e = .structError ∨ e = .zlibError)) ∧
    (∀ (srv : Server) (u : String) (r : HttpResponse),
       srv ⟨u, none, none⟩ = r → r.location = none → r.status = 200 →
       r.contentEncoding = some "deflate" → inflateModel r.body = none →
       (parseModel srv u none none).bozo = 1 ∧
       (parseModel srv u none none).status = 200 ∧
       (parseModel srv u none none).bozoDiag = some Diagnostic.zlibError) := by
  constructor
  · intro srv u r e h1 hloc hst henc hgz
    obtain ⟨st, loc, et, lm, ce, body⟩ := r
    simp only at hloc hst henc hgz
    subst hloc
    subst hst
    subst henc
    have hf : fetchLoop srv none none 10 u none
        = ⟨⟨200, none, et, lm, some "gzip", body⟩, 200, u⟩ := by
      rw [show (10 : Nat) = 9 + 1 from rfl, fetchLoop_succ, h1]
      rfl
    refine ⟨?_, ?_, ?_, ?_⟩
    · unfold parseModel
      rw [Option.map_none', hf]
      simp [hgz]
    · unfold parseModel
      rw [Option.map_none', hf]
      simp [hgz]
    · unfold parseModel
      rw [Option.map_none', hf]
      simp [hgz]
    · cases e
      · exact Or.inl rfl
      · exact Or.inr (Or.inl rfl)
      · exact Or.inr (Or.inr rfl)
  · intro srv u r h1 hloc hst henc hz
    obtain ⟨st, loc, et, lm, ce, body⟩ := r
    simp only at hloc hst henc hz
    subst hloc
    subst hst
    subst henc
    have hf : fetchLoop srv none none 10 u none
        = ⟨⟨200, none, et, lm, some "deflate", body⟩, 200, u⟩ := by
      rw [show (10 : Nat) = 9 + 1 from rfl, fetchLoop_succ, h1]
      rfl
    refine ⟨?_, ?_, ?_⟩ <;>
      · unfold parseModel
        rw [Option.map_none', hf]
        simp [hz]

/-- A concrete origin serving a body that is not gzip under a gzip
Content-Encoding declaration. -/
def demoGzipServer : Server := fun _ =>
  ⟨200, none, none, none, some "gzip", [0, 1, 2]⟩

/-- A concrete origin serving an invalid deflate body. -/
def demoDeflateServer : Server := fun _ =>
  ⟨200, none, none, none, some "deflate", [9, 9]⟩

/-- C7 witness: the compression theorem at concrete origins, for both
the gzip and the deflate branch. -/
theorem compression_mismatch_bozo_witness :
    ((parseModel demoGzipServer "u" none none).bozo = 1 ∧
     (parseModel demoGzipServer "u" none none).status = 200 ∧
     (parseModel demoGzipServer "u" none none).bozoDiag
       = some Diagnostic.ioError) ∧
    ((parseModel demoDeflateServer "u" none none).bozo = 1 ∧
     (parseModel demoDeflateServer "u" none none).status = 200 ∧
     (parseModel demoDeflateServer "u" none none).bozoDiag
       = some Diagnostic.zlibError) :=
  ⟨(fun h => ⟨h.1, h.2.1, h.2.2.1⟩)
     (compression_mismatch_bozo.1 demoGzipServer "u"
       ⟨200, none, none, none, some "gzip", [0, 1, 2]⟩ .ioError
       rfl rfl rfl rfl rfl),
   compression_mismatch_bozo.2 demoDeflateServer "u"
     ⟨200, none, none, none, some "deflate", [9, 9]⟩
     rfl rfl rfl rfl rfl⟩

theorem staticServer_validators_304 (et lm u : String) (body : List Nat)
    (etag lmv : Option String) (hcond : etag = some et ∨ lmv = some lm) :
    fetchLoop (staticServer et lm body) etag lmv 10 u none
      = ⟨⟨304, none, some et, some lm, none, []⟩, 304, u⟩ := by
  rw [show (10 : Nat) = 9 + 1 from rfl, fetchLoop_succ]
  have hsrv : staticServer et lm body ⟨u, etag, lmv⟩
      = ⟨304, none, some et, some lm, none, []⟩ := by
    unfold staticServer
    rw [if_pos hcond]
  rw [hsrv]
  rfl

/-- C8: After a successful fetch of an unchanged resource, re-invoking
parse with the previously returned etag yields status 304, and
re-invoking with the previously returned last-modified value in any of
its three accepted forms (wire-format string, calendar tuple, datetime
value) likewise yields status 304. -/
theorem conditional_get_304 :
    ∀ (et lm u : String) (body : List Nat) (t : TimeTuple),
      _parse_date lm = some t →
      formatRFC822 t = lm →
      normTuple t.year t.month t.mday t.hour t.minute t.second 0 = t →
      (parseModel (staticServer et lm body) u none none).status = 200 ∧
      (parseModel (staticServer et lm body) u none none).etagH = some et ∧
      (parseModel (staticServer et lm body) u none none).lastModifiedH
        = some lm ∧
      (parseModel (staticServer et lm body) u none none).updated = some t ∧
      (parseModel (staticServer et lm body) u (some et) none).status = 304 ∧
      (parseModel (staticServer et lm body) u none
        (some (.str lm))).status = 304 ∧
      (parseModel (staticServer et lm body) u none
        (some (.tup t))).status = 304 ∧
      (parseModel (staticServer et lm body) u none
        (some (.dt t.year t.month t.mday t.hour t.minute t.second))).status
        = 304 := by
  intro et lm u body t hparse hfmt hidem
  refine ⟨rfl, rfl, rfl, hparse, ?_, ?_, ?_, ?_⟩
  · unfold parseModel
    rw [Option.map_none',
      staticServer_validators_304 et lm u body (some et) none (Or.inl rfl)]
    rfl
  · unfold parseModel
    rw [show (some (ModifiedArg.str lm)).map serializeModified = some lm from rfl,
      staticServer_validators_304 et lm u body none (some lm) (Or.inr rfl)]
    rfl
  · have hm : (some (ModifiedArg.tup t)).map serializeModified = some lm := by
      simp [serializeModified, hfmt]
    unfold parseModel
    rw [hm, staticServer_validators_304 et lm u body none (some lm) (Or.inr rfl)]
    rfl
  · have hm : (some (ModifiedArg.dt t.year t.month t.mday t.hour t.minute
        t.second)).map serializeModified = some lm := by
      simp [serializeModified, hidem, hfmt]
    unfold parseModel
    rw [hm, staticServer_validators_304 et lm u body none (some lm) (Or.inr rfl)]
    rfl

/-- C8 witness: the conditional-GET theorem at a concrete resource
whose Last-Modified value is in canonical wire format. -/
theorem conditional_get_304_witness :
    (parseModel (staticServer "xyzzy" "Thu, 01 Jan 2004 19:48:21 GMT" [1])
        "u" none none).status = 200 ∧
    (parseModel (staticServer "xyzzy" "Thu, 01 Jan 2004 19:48:21 GMT" [1])
        "u" none none).etagH = some "xyzzy" ∧
    (parseModel (staticServer "xyzzy" "Thu, 01 Jan 2004 19:48:21 GMT" [1])
        "u" none none).lastModifiedH = some "Thu, 01 Jan 2004 19:48:21 GMT" ∧
    (parseModel (staticServer "xyzzy" "Thu, 01 Jan 2004 19:48:21 GMT" [1])
        "u" none none).updated = some ⟨2004, 1, 1, 19, 48, 21, 3, 1, 0⟩ ∧
    (parseModel (staticServer "xyzzy" "Thu, 01 Jan 2004 19:48:21 GMT" [1])
        "u" (some "xyzzy") none).status = 304 ∧
    (parseModel (staticServer "xyzzy" "Thu, 01 Jan 2004 19:48:21 GMT" [1])
        "u" none (some (.str "Thu, 01 Jan 2004 19:48:21 GMT"))).status = 304 ∧
    (parseModel (staticServer "xyzzy" "Thu, 01 Jan 2004 19:48:21 GMT" [1])
        "u" none (some (.tup ⟨2004, 1, 1, 19, 48, 21, 3, 1, 0⟩))).status
      = 304 ∧
    (parseModel (staticServer "xyzzy" "Thu, 01 Jan 2004 19:48:21 GMT" [1])
        "u" none (some (.dt 2004 1 1 19 48 21))).status = 304 :=
  conditional_get_304 "xyzzy" "Thu, 01 Jan 2004 19:48:21 GMT" "u" [1]
    ⟨2004, 1, 1, 19, 48, 21, 3, 1, 0⟩ (by decide) (by decide) (by decide)

set_option maxHeartbeats 2000000 in
/-- C10: In byte-signature sniffing, the 4-byte prefixes FF FE 00 00
and 00 00 FE FF are classified as UTF-32LE and UTF-32BE respectively,
never as UTF-16 with trailing NULs, and a 2-byte UTF-16 byte-order mark
is classified as UTF-16 only when the following two bytes are not both
0x00. -/
theorem utf32_priority_over_utf16 :
    ∀ (rest data : List Nat),
      sniff (0xff :: 0xfe :: 0x00 :: 0x00 :: rest) = .utf32le ∧
      sniff (0x00 :: 0x00 :: 0xfe :: 0xff :: rest) = .utf32be ∧
      (sniff data = .utf16beBom →
        data.take 2 = [0xfe, 0xff] ∧ (data.drop 2).take 2 ≠ [0x00, 0x00]) ∧
      (sniff data = .utf16leBom →
        data.take 2 = [0xff, 0xfe] ∧ (data.drop 2).take 2 ≠ [0x00, 0x00]) := by
  intro rest data
  refine ⟨rfl, rfl, ?_, ?_⟩
  · intro h
    unfold sniff at h
    repeat' split at h
    all_goals first
    | exact SniffKind.noConfusion h
    | assumption
  · intro h
    unfold sniff at h
    repeat' split at h
    all_goals first
    | exact SniffKind.noConfusion h
    | assumption

/-- C10 witness: the sniffing theorem at concrete byte prefixes. -/
theorem utf32_priority_over_utf16_witness :
    sniff [0xff, 0xfe, 0x00, 0x00] = .utf32le ∧
    (([0xfe, 0xff, 0x41, 0x00] : List Nat).take 2 = [0xfe, 0xff] ∧
      (([0xfe, 0xff, 0x41, 0x00] : List Nat).drop 2).take 2 ≠ [0x00, 0x00]) :=
  ⟨(utf32_priority_over_utf16 [] [0xfe, 0xff, 0x41, 0x00]).1,
   (utf32_priority_over_utf16 [] [0xfe, 0xff, 0x41, 0x00]).2.2.1 (by decide)⟩

end Feedparser
